import Mathlib

/- Shallow embedding of the frame-studio repository (TypeScript).
   Numbers that flow through string formatting are modelled as exact
   terminating decimals (significand and base-ten exponent), frame geometry
   uses rationals, and colour luminance uses real numbers. -/

/-- A nonnegative terminating decimal value `m / 10 ^ e`, the idealisation of
the JS numbers that reach the formatting helpers of `src/lib/utils.ts` and
`src/components/FrameCanvas.tsx`. -/
structure Dec where
  m : Nat
  e : Nat
deriving DecidableEq

/-- The rational value denoted by a decimal. -/
def Dec.toQ (d : Dec) : Rat := Rat.divInt d.m (10 ^ d.e)

theorem Dec.toQ_eq_div (d : Dec) : d.toQ = (d.m : Rat) / ((10 ^ d.e : Nat) : Rat) := by
  unfold Dec.toQ
  rw [Rat.divInt_eq_div]
  push_cast
  ring

/-- A decimal is canonical when its fraction part has no trailing zero; for
canonical decimals the digit string below is exactly what JS
`Number.prototype.toString` prints for the value. -/
def Dec.normal (d : Dec) : Prop := d.e = 0 ∨ d.m % 10 ≠ 0

instance (d : Dec) : Decidable d.normal := by
  unfold Dec.normal; infer_instance

/-- The character for a single decimal digit. -/
def digitChar (n : Nat) : Char := Char.ofNat (48 + n)

/-- Digit characters of a natural number, most significant first; the first
argument is recursion fuel (any fuel above the number itself is enough). -/
def natCharsAux : Nat → Nat → List Char
  | 0, _ => []
  | fuel + 1, n =>
    if n < 10 then [digitChar n]
    else natCharsAux fuel (n / 10) ++ [digitChar (n % 10)]

/-- Decimal digit characters of a natural number. -/
def natStr (n : Nat) : List Char := natCharsAux (n + 1) n

/-- Embedding of `String.indexOf` restricted to a single-character needle, as used by
`formatDecimal` on `'.'`. -/
def jsIndexOf (c : Char) : List Char → Option Nat
  | [] => none
  | a :: rest => if a = c then some 0 else (jsIndexOf c rest).map (· + 1)

/-- Left-pad a digit list with zeros to length `k`. -/
def padZeros (cs : List Char) (k : Nat) : List Char :=
  List.replicate (k - cs.length) '0' ++ cs

/-- The digit string JS `toString` prints for a canonical decimal: the integer
part, then a dot and exactly `e` fraction digits when `e > 0`. -/
def Dec.chars (d : Dec) : List Char :=
  if d.e = 0 then natStr d.m
  else natStr (d.m / 10 ^ d.e) ++ '.' :: padZeros (natStr (d.m % 10 ^ d.e)) d.e

/-- String form of `Dec.chars`. -/
def Dec.str (d : Dec) : String := String.mk d.chars

/-- JS `value.toFixed(1)`: the value rounded half-up to one fraction digit,
always printed with exactly one fraction digit. -/
def jsToFixed1 (d : Dec) : String :=
  let n := (20 * d.m + 10 ^ d.e) / (2 * 10 ^ d.e)
  String.mk (natStr (n / 10) ++ '.' :: natStr (n % 10))

/-- Embedding of `formatDecimal` from `src/lib/utils.ts`: render the value, and if the
rendering carries more than one fraction digit, re-render with `toFixed(1)`. -/
def formatDecimal (value : Dec) : String :=
  let decimalStr := value.chars
  match jsIndexOf '.' decimalStr with
  | none => String.mk decimalStr
  | some decimalIndex =>
    if decimalStr.length - decimalIndex - 1 > 1 then jsToFixed1 value
    else String.mk decimalStr

example : Dec.str ⟨204, 2⟩ = "2.04" := by decide
example : Dec.str ⟨4, 3⟩ = "0.004" := by decide
example : Dec.str ⟨35, 0⟩ = "35" := by decide
example : formatDecimal ⟨204, 2⟩ = "2.0" := by decide
example : formatDecimal ⟨28, 1⟩ = "2.8" := by decide
example : formatDecimal ⟨35, 0⟩ = "35" := by decide
example : formatDecimal ⟨2849, 3⟩ = "2.8" := by decide

/-- Digit characters of an integer (sign then digits). -/
def intStr : Int → List Char
  | Int.ofNat n => natStr n
  | Int.negSucc n => '-' :: natStr (n + 1)

/-- JS `Math.round`: the floor of `x + 1/2`. -/
def jsRound (q : Rat) : Int := Int.floor (q + 1 / 2)

/-- Evaluation form of `jsRound` on numerator and denominator; the kernel can
compute the right-hand side. -/
theorem jsRound_eq (q : Rat) : jsRound q = (2 * q.num + q.den) / (2 * q.den : Nat) := by
  unfold jsRound
  have hden : ((q.den : Rat)) ≠ 0 := by
    exact_mod_cast q.den_nz
  have hq : q + 1 / 2 = ((2 * q.num + q.den : Int) : Rat) / ((2 * q.den : Nat) : Rat) := by
    conv_lhs => rw [← Rat.num_div_den q]
    push_cast
    field_simp
    ring
  rw [hq, Rat.floor_intCast_div_natCast]

/-- For a nonzero decimal, the reciprocal in evaluable form. -/
theorem one_div_toQ (d : Dec) : 1 / d.toQ = Rat.divInt (10 ^ d.e) d.m := by
  rw [Dec.toQ_eq_div, Rat.divInt_eq_div, one_div_div]
  push_cast
  ring

/-- Embedding of `ExifData` from `src/routes/index.tsx`; every field may be absent. -/
structure ExifData where
  make : Option String
  model : Option String
  focalLength : Option Dec
  iso : Option Dec
  shutterSpeed : Option Dec
  aperture : Option Dec
deriving DecidableEq

namespace FrameCanvas

/-- Embedding of `formatFocalLength` from `src/components/FrameCanvas.tsx`; the JS guard
`if (!focalLength)` also rejects the value 0. -/
def formatFocalLength : Option Dec → Option String
  | none => none
  | some d => if d.m = 0 then none else some (formatDecimal d ++ "mm")

/-- Embedding of `formatShutterSpeed` from `src/components/FrameCanvas.tsx`: seconds with an
`s` suffix at one second or more, otherwise the rounded reciprocal as `1/n`
with no suffix. -/
def formatShutterSpeed : Option Dec → Option String
  | none => none
  | some d =>
    if d.m = 0 then none
    else if 1 ≤ d.toQ then some (d.str ++ "s")
    else some ("1/" ++ String.mk (intStr (jsRound (1 / d.toQ))))

/-- Embedding of `formatAperture` from `src/components/FrameCanvas.tsx`. -/
def formatAperture : Option Dec → Option String
  | none => none
  | some d => if d.m = 0 then none else some ("f/" ++ formatDecimal d)

/-- Embedding of `formatISO` from `src/components/FrameCanvas.tsx`. -/
def formatISO : Option Dec → Option String
  | none => none
  | some d => if d.m = 0 then none else some ("ISO" ++ d.str)

/-- Embedding of `formatExifString` from `src/components/FrameCanvas.tsx`: the four
formatted fields in source order, absent entries filtered out, joined by two
spaces; `null` when nothing remains. -/
def formatExifString : Option ExifData → Option String
  | none => none
  | some exifData =>
    let parts := [formatFocalLength exifData.focalLength,
                  formatAperture exifData.aperture,
                  formatShutterSpeed exifData.shutterSpeed,
                  formatISO exifData.iso].filterMap id
    if parts.length > 0 then some (String.intercalate "  " parts) else none

/-- Evaluation lemma: `formatShutterSpeed` at a concrete sub-second decimal. -/
theorem formatShutterSpeed_frac (d : Dec) (h0 : d.m ≠ 0) (h1 : ¬ (1 : Rat) ≤ d.toQ) :
    formatShutterSpeed (some d) =
      some ("1/" ++ String.mk (intStr ((2 * (Rat.divInt (10 ^ d.e) d.m).num +
        (Rat.divInt (10 ^ d.e) d.m).den) / (2 * (Rat.divInt (10 ^ d.e) d.m).den : Nat)))) := by
  simp only [formatShutterSpeed]
  rw [if_neg h0, if_neg h1, one_div_toQ d, jsRound_eq]

/-- Shutter speed 0.004 s renders as the reciprocal form. -/
theorem shutter_0004 : formatShutterSpeed (some ⟨4, 3⟩) = some "1/250" := by
  rw [formatShutterSpeed_frac ⟨4, 3⟩ (by decide) (by decide)]
  decide

example : formatShutterSpeed (some ⟨2, 0⟩) = some "2s" := by decide
example : formatAperture (some ⟨28, 1⟩) = some "f/2.8" := by decide
example : formatFocalLength (some ⟨35, 0⟩) = some "35mm" := by decide
example :
    formatExifString (some ⟨none, none, some ⟨35, 0⟩, some ⟨200, 0⟩, some ⟨4, 3⟩, some ⟨28, 1⟩⟩) =
      some "35mm  f/2.8  1/250  ISO200" := by
  simp only [formatExifString, shutter_0004]
  decide

end FrameCanvas

/-- Per-side frame widths, the `frameWidths` object of `FrameSettings`
(`src/routes/index.tsx`). -/
structure FrameWidths where
  top : Rat
  right : Rat
  bottom : Rat
  left : Rat
deriving DecidableEq

/-- Embedding of `FrameSettings` from `src/routes/index.tsx`. Fields marked optional in the
TS type are `Option`s; `none` means the key is absent. -/
structure FrameSettings where
  frameWidth : Rat
  frameColor : String
  textColor : String
  contrastAwareText : Option Bool
  textEnabled : Option Bool
  showShotOnText : Option Bool
  showExifData : Option Bool
  frameWidths : Option FrameWidths
deriving DecidableEq

/-- Embedding of `Preset` from `src/routes/index.tsx`: a named partial settings object. -/
structure Preset where
  name : String
  frameWidth : Option Rat
  frameColor : String
  textColor : String
  contrastAwareText : Option Bool
  textEnabled : Option Bool
  showShotOnText : Option Bool
  showExifData : Option Bool
  frameWidths : Option FrameWidths
deriving DecidableEq

namespace Routes

/-- Embedding of `DEFAULT_SETTINGS` from `src/routes/index.tsx`. -/
def DEFAULT_SETTINGS : FrameSettings :=
  { frameWidth := 8

    frameColor := "#ffffff"
    textColor := "#000000"
    contrastAwareText := some true
    textEnabled := some false
    showShotOnText := some false
    showExifData := some false
    frameWidths := none }

/-- The three entries of `PRESETS` from `src/routes/index.tsx`. -/
def classicWhite : Preset :=
  { name := "Classic White", frameWidth := some 4, frameColor := "#ffffff",
    textColor := "#000000", contrastAwareText := none, textEnabled := none,
    showShotOnText := none, showExifData := none, frameWidths := none }

def blackAndWhite : Preset :=
  { name := "Black & White", frameWidth := some 4, frameColor := "#000000",
    textColor := "#ffffff", contrastAwareText := none, textEnabled := none,
    showShotOnText := none, showExifData := none, frameWidths := none }

def blackBottomInfo : Preset :=
  { name := "Black Bottom Info", frameWidth := none, frameColor := "#000000",
    textColor := "#ffffff", contrastAwareText := some true,
    textEnabled := some true, showShotOnText := some true,
    showExifData := some true, frameWidths := some ⟨2, 2, 12, 2⟩ }

def PRESETS : List Preset := [classicWhite, blackAndWhite, blackBottomInfo]

/-- The settings produced by the object spread `{ ...DEFAULT_SETTINGS,
...preset }` in `handlePresetSelect` (`src/routes/index.tsx`): a key present
on the preset wins, a key the preset omits keeps the default value. -/
def presetSettings (preset : Preset) : FrameSettings :=
  { frameWidth := preset.frameWidth.getD DEFAULT_SETTINGS.frameWidth
    frameColor := preset.frameColor
    textColor := preset.textColor
    contrastAwareText := preset.contrastAwareText.orElse fun _ => DEFAULT_SETTINGS.contrastAwareText
    textEnabled := preset.textEnabled.orElse fun _ => DEFAULT_SETTINGS.textEnabled
    showShotOnText := preset.showShotOnText.orElse fun _ => DEFAULT_SETTINGS.showShotOnText
    showExifData := preset.showExifData.orElse fun _ => DEFAULT_SETTINGS.showExifData
    frameWidths := preset.frameWidths.orElse fun _ => DEFAULT_SETTINGS.frameWidths }

/-- Embedding of `handlePresetSelect` from `src/routes/index.tsx`, acting on the part of
the App state it writes: it sets the selected-preset name and replaces the
frame settings with defaults overridden by the preset, ignoring the previous
settings entirely. -/
def handlePresetSelect (preset : Preset) (_prev : FrameSettings × String) :
    FrameSettings × String :=
  (presetSettings preset, preset.name)

end Routes

/-- The result of the geometry block of `img.onload`
(`src/components/FrameCanvas.tsx`, lines 107-134). -/
structure Geometry where
  topPx : Rat
  rightPx : Rat
  bottomPx : Rat
  leftPx : Rat
  canvasWidth : Rat
  canvasHeight : Rat
deriving DecidableEq

namespace FrameCanvas

/-- The geometry computation of `img.onload` in `src/components/FrameCanvas.tsx`:
side widths are percentages of the average image dimension, taken per side from
`frameWidths` when it is set and uniformly from `frameWidth` otherwise; the
canvas adds the side widths to the image dimensions. -/
def computeGeometry (imageWidth imageHeight : Rat) (s : FrameSettings) : Geometry :=
  let avgImageSize := (imageWidth + imageHeight) / 2
  match s.frameWidths with
  | some frameWidths =>
    let topPx := avgImageSize * frameWidths.top / 100
    let rightPx := avgImageSize * frameWidths.right / 100
    let bottomPx := avgImageSize * frameWidths.bottom / 100
    let leftPx := avgImageSize * frameWidths.left / 100
    { topPx := topPx, rightPx := rightPx, bottomPx := bottomPx, leftPx := leftPx,
      canvasWidth := imageWidth + leftPx + rightPx,
      canvasHeight := imageHeight + topPx + bottomPx }
  | none =>
    let frameWidthPx := avgImageSize * s.frameWidth / 100
    { topPx := frameWidthPx, rightPx := frameWidthPx, bottomPx := frameWidthPx,
      leftPx := frameWidthPx,
      canvasWidth := imageWidth + frameWidthPx + frameWidthPx,
      canvasHeight := imageHeight + frameWidthPx + frameWidthPx }

end FrameCanvas

example :
    FrameCanvas.computeGeometry 1000 800 { Routes.DEFAULT_SETTINGS with frameWidth := 10 } =
      ⟨90, 90, 90, 90, 1180, 980⟩ := by
  simp only [FrameCanvas.computeGeometry, Routes.DEFAULT_SETTINGS]
  norm_num

/-- Whitespace for the purposes of `trim` and the regex `\s` (ASCII range; the
EXIF strings the resolver sees contain no exotic Unicode spaces). -/
def jsIsSpace (c : Char) : Bool :=
  c = ' ' || c = '\t' || c = '\n' || c = '\r' || c = '\x0b' || c = '\x0c'

/-- JS `String.prototype.trim`: drop whitespace from both ends. -/
def jsTrim (cs : List Char) : List Char :=
  ((cs.dropWhile jsIsSpace).reverse.dropWhile jsIsSpace).reverse

/-- The regex replacement `\s+` → single space: every maximal whitespace run
becomes one space character.  The boolean tracks whether the previous
character belonged to a run. -/
def collapseRuns : Bool → List Char → List Char
  | _, [] => []
  | prevSpace, c :: rest =>
    if jsIsSpace c then
      if prevSpace then collapseRuns true rest else ' ' :: collapseRuns true rest
    else c :: collapseRuns false rest

namespace Storage

/-- Embedding of `normalize` from `src/lib/storage.ts`: lowercase, trim, collapse internal
whitespace runs to one space. -/
def normalize (str : String) : String :=
  String.mk (collapseRuns false (jsTrim (str.data.map Char.toLower)))

/-- Does `hay` start with `pre`? -/
def startsWithChars : List Char → List Char → Bool
  | [], _ => true
  | _ :: _, [] => false
  | a :: as, b :: bs => (a = b) && startsWithChars as bs

/-- JS `String.prototype.includes`: `needle` occurs somewhere in `hay` (the
empty needle always occurs). -/
def includesChars (hay needle : List Char) : Bool :=
  match hay with
  | [] => needle.isEmpty
  | _ :: rest => startsWithChars needle hay || includesChars rest needle

example : includesChars "iphone 15 pro".data "iphone".data = true := by decide
example : includesChars "x100vi".data "".data = true := by decide
example : normalize "  FUJIFILM  " = "fujifilm" := by decide
example : normalize "X-T30   II" = "x-t30 ii" := by decide

/-- Embedding of `CameraBrand` from `src/lib/storage.ts`; the model map is kept as an
association list in declaration order, matching `Object.entries` iteration. -/
structure CameraBrand where
  folder : String
  models : List (String × String)
  brandLogo : String

/-- The `fujifilm` entry of `CAMERA_BRANDS` (`src/lib/storage.ts`). -/
def fujifilmBrand : CameraBrand :=
  { folder := "fujifilm"
    models := [("x100vi", "x100vi"), ("x100v", "x100vi"),
               ("x-e5", "x-e5"), ("x-e4", "x-e5"),
               ("x-h2", "x-h2"), ("x-h2s", "x-h2s"),
               ("x-t50", "x-t50"), ("x-t5", "x-t50"),
               ("x-t30 ii", "x-t30iii"), ("x-t30iii", "x-t30iii"),
               ("x-m5", "x-m5"), ("x-half", "x-half")]
    brandLogo := "fujifilm_logo" }

/-- The `apple` entry of `CAMERA_BRANDS` (`src/lib/storage.ts`). -/
def appleBrand : CameraBrand :=
  { folder := "apple"
    models := [("iphone", "iphone")]
    brandLogo := "apple_logo" }

/-- Embedding of `CAMERA_BRANDS` from `src/lib/storage.ts`. -/
def CAMERA_BRANDS : List (String × CameraBrand) :=
  [("fujifilm", fujifilmBrand), ("apple", appleBrand)]

/-- The `for (const [modelKey, fileName] of Object.entries(brand.models))`
loop of `getCameraLogoPath`: first pair where either string contains the
other. -/
def firstTwoWay (normalizedModel : String) : List (String × String) → Option String
  | [] => none
  | (modelKey, fileName) :: rest =>
    if includesChars normalizedModel.data modelKey.data ||
       includesChars modelKey.data normalizedModel.data
    then some fileName else firstTwoWay normalizedModel rest

/-- Embedding of `getCameraLogoPath` from `src/lib/storage.ts`.  The JS guard `if (!make)`
also rejects the empty make string, and `model ? normalize(model) : ''`
coincides with normalising the empty string, so an absent model is embedded as
the empty normalized model. -/
def getCameraLogoPath (make model : Option String) (isDarkBg : Bool) : Option String :=
  match make with
  | none => none
  | some mk =>
    if mk = "" then none
    else
      let normalizedMake := normalize mk
      let normalizedModel := match model with
        | some md => normalize md
        | none => ""
      match CAMERA_BRANDS.lookup normalizedMake with
      | none => none
      | some brand =>
        let variantStr : String := if isDarkBg then "white" else "black"
        let basePath := "/logos/" ++ brand.folder
        if normalizedModel ≠ "" then
          match brand.models.lookup normalizedModel with
          | some fileName => some (basePath ++ "/" ++ fileName ++ "_" ++ variantStr ++ ".webp")
          | none =>
            if normalizedMake = "apple" && includesChars normalizedModel.data "iphone".data then
              some (basePath ++ "/iphone_" ++ variantStr ++ ".webp")
            else
              match firstTwoWay normalizedModel brand.models with
              | some fileName =>
                some (basePath ++ "/" ++ fileName ++ "_" ++ variantStr ++ ".webp")
              | none => some (basePath ++ "/" ++ brand.brandLogo ++ "_" ++ variantStr ++ ".webp")
        else some (basePath ++ "/" ++ brand.brandLogo ++ "_" ++ variantStr ++ ".webp")

example :
    getCameraLogoPath (some "FUJIFILM") (some "X100VI") false =
      some "/logos/fujifilm/x100vi_black.webp" := by decide
example : getCameraLogoPath (some "Canon") (some "EOS R5") false = none := by decide
example : getCameraLogoPath none (some "X100VI") true = none := by decide
example :
    getCameraLogoPath (some "Apple") (some "iPhone 15 Pro") true =
      some "/logos/apple/iphone_white.webp" := by decide
example :
    getCameraLogoPath (some "FUJIFILM") (some " ") false =
      some "/logos/fujifilm/fujifilm_logo_black.webp" := by decide

end Storage

/-- Value of one hexadecimal digit character, `none` for any other character
(where JS `parseInt` yields `NaN`). -/
def hexDigitVal (c : Char) : Option Nat :=
  if '0' ≤ c && c ≤ '9' then some (c.toNat - 48)
  else if 'a' ≤ c && c ≤ 'f' then some (c.toNat - 87)
  else if 'A' ≤ c && c ≤ 'F' then some (c.toNat - 55)
  else none

/-- Accumulating loop of `parseInt(s, 16)`: consume digits until a non-digit. -/
def jsParseHexLoop (acc : Nat) : List Char → Nat
  | [] => acc
  | c :: rest =>
    match hexDigitVal c with
    | some v => jsParseHexLoop (16 * acc + v) rest
    | none => acc

/-- Embedding of `parseInt(s, 16)`: the value of the longest hex-digit run at the start of
the string, `none` (JS `NaN`) when the first character is not a hex digit. -/
def jsParseHex : List Char → Option Nat
  | [] => none
  | c :: rest =>
    match hexDigitVal c with
    | some v => some (jsParseHexLoop v rest)
    | none => none

/-- JS `hexColor.replace('#', '')`: delete the first occurrence of `#`. -/
def removeFirstHash : List Char → List Char
  | [] => []
  | c :: rest => if c = '#' then rest else c :: removeFirstHash rest

/-- The three channel bytes read by `getLuminance`: `parseInt` applied to
`substring(0,2)`, `substring(2,4)`, `substring(4,6)` of the string with its
first `#` removed; `none` when any of them is `NaN`. -/
def hexChannels (hexColor : String) : Option (Nat × Nat × Nat) :=
  let hex := removeFirstHash hexColor.data
  match jsParseHex (hex.take 2), jsParseHex ((hex.drop 2).take 2),
        jsParseHex ((hex.drop 4).take 2) with
  | some r, some g, some b => some (r, g, b)
  | _, _, _ => none

/-- A six-hex-digit colour string, with or without a leading `#`. -/
def isHexColor6 (s : String) : Bool :=
  (removeFirstHash s.data).length == 6 &&
    (removeFirstHash s.data).all (fun c => (hexDigitVal c).isSome)

example : hexChannels "#ffffff" = some (255, 255, 255) := by decide
example : hexChannels "#2a0b10" = some (42, 11, 16) := by decide
example : isHexColor6 "#ffffff" = true := by decide
example : isHexColor6 "ffffff" = true := by decide
example : isHexColor6 "#fff" = false := by decide

/-- The `toLinear` arrow function appearing identically inside `getLuminance`
in both `src/components/FrameCanvas.tsx` and `src/lib/storage.ts`: standard
sRGB gamma linearization. -/
noncomputable def toLinear (c : Real) : Real :=
  if c ≤ 0.03928 then c / 12.92 else ((c + 0.055) / 1.055) ^ (2.4 : Real)

namespace FrameCanvas

/-- Embedding of `getLuminance` from `src/components/FrameCanvas.tsx`.  A parse failure
makes every JS float downstream `NaN`, embedded as `none`. -/
noncomputable def getLuminance (hexColor : String) : Option Real :=
  match hexChannels hexColor with
  | none => none
  | some (r, g, b) =>
    some (0.2126 * toLinear ((r : Real) / 255) + 0.7152 * toLinear ((g : Real) / 255) +
          0.0722 * toLinear ((b : Real) / 255))

/-- Embedding of `getContrastTextColor` from `src/components/FrameCanvas.tsx`.  In JS,
`NaN > 0.179` is false, so the `none` branch yields white. -/
noncomputable def getContrastTextColor (backgroundColor : String) : String :=
  match getLuminance backgroundColor with
  | none => "#ffffff"
  | some luminance => if luminance > 0.179 then "#000000" else "#ffffff"

end FrameCanvas

namespace Storage

/-- Embedding of `getLuminance` from `src/lib/storage.ts`, textually the same computation
as the one in `FrameCanvas.tsx`. -/
noncomputable def getLuminance (hexColor : String) : Option Real :=
  match hexChannels hexColor with
  | none => none
  | some (r, g, b) =>
    some (0.2126 * toLinear ((r : Real) / 255) + 0.7152 * toLinear ((g : Real) / 255) +
          0.0722 * toLinear ((b : Real) / 255))

/-- Embedding of `isDarkBackground` from `src/lib/storage.ts`.  In JS, `NaN <= 0.179` is
false, so the `none` branch yields `false`. -/
noncomputable def isDarkBackground (backgroundColor : String) : Bool :=
  match getLuminance backgroundColor with
  | none => false
  | some l => if l ≤ 0.179 then true else false

end Storage

theorem storage_lum_eq_frameCanvas :
    ∀ s, Storage.getLuminance s = FrameCanvas.getLuminance s := fun _ => rfl

theorem toLinear_zero : toLinear 0 = 0 := by
  unfold toLinear
  rw [if_pos (by norm_num)]
  norm_num

theorem toLinear_one : toLinear 1 = 1 := by
  unfold toLinear
  rw [if_neg (by norm_num)]
  have h : ((1 : Real) + 0.055) / 1.055 = 1 := by norm_num
  rw [h, Real.one_rpow]

theorem storage_lum_white : Storage.getLuminance "#ffffff" = some 1 := by
  have hc : hexChannels "#ffffff" = some (255, 255, 255) := by decide
  simp only [Storage.getLuminance, hc]
  have h255 : ((255 : Nat) : Real) / 255 = 1 := by norm_num
  rw [h255, toLinear_one]
  norm_num

theorem storage_lum_black : Storage.getLuminance "#000000" = some 0 := by
  have hc : hexChannels "#000000" = some (0, 0, 0) := by decide
  simp only [Storage.getLuminance, hc]
  have h0 : ((0 : Nat) : Real) / 255 = 0 := by norm_num
  rw [h0, toLinear_zero]
  norm_num

theorem isDark_white : Storage.isDarkBackground "#ffffff" = false := by
  simp only [Storage.isDarkBackground, storage_lum_white]
  rw [if_neg (by norm_num)]

theorem isDark_black : Storage.isDarkBackground "#000000" = true := by
  simp only [Storage.isDarkBackground, storage_lum_black]
  rw [if_pos (by norm_num)]

namespace FrameCanvas

/-- One invocation of the `FrameCanvas` effect is identified by the props it
closed over: photo URL, frame settings, and EXIF data. -/
structure CompInput where
  imageUrl : String
  frameSettings : FrameSettings
  exifData : Option ExifData
deriving DecidableEq

/-- What the canvas pixels show: the base composition (frame fill plus photo)
drawn by `img.onload`, or the full composition redrawn by `logoImg.onload`,
each entirely determined by the input closed over by that callback. -/
inductive SurfaceDraw
  | base (inp : CompInput)
  | withLogo (inp : CompInput)
deriving DecidableEq

/-- The browser-side state the effect manipulates: the canvas content and the
`onload` callbacks that have been registered but have not fired yet. -/
structure CanvasState where
  canvas : Option SurfaceDraw
  pendingImg : List CompInput
  pendingLogo : List CompInput
deriving DecidableEq

/-- The cleanup function returned by the effect
(`src/components/FrameCanvas.tsx`, lines 258-260): its body is empty, so it
changes nothing — in particular it does not detach the pending callbacks of
the superseded run. -/
def effectCleanup (st : CanvasState) : CanvasState := st

/-- Running the effect body for a non-null `imageUrl`: React first runs the
previous effect's cleanup, then the body creates an `Image` and registers its
`onload`, closing over the current props. -/
def runEffect (inp : CompInput) (st : CanvasState) : CanvasState :=
  let st1 := effectCleanup st
  { st1 with pendingImg := st1.pendingImg ++ [inp] }

/-- The logo path the `img.onload` callback resolves (lines 154-160). -/
noncomputable def logoPathFor (inp : CompInput) : Option String :=
  Storage.getCameraLogoPath (inp.exifData.bind ExifData.make)
    (inp.exifData.bind ExifData.model)
    (Storage.isDarkBackground inp.frameSettings.frameColor)

/-- Embedding of `img.onload` firing for a registered run: it redraws the canvas from its
closed-over input unconditionally — nothing compares that input with the
current props — and, when `textEnabled` holds and a logo path resolves,
registers `logoImg.onload` for the same input. -/
noncomputable def fireImgLoad (inp : CompInput) (st : CanvasState) : CanvasState :=
  if inp ∈ st.pendingImg then
    let st1 := { st with pendingImg := st.pendingImg.erase inp,
                         canvas := some (SurfaceDraw.base inp) }
    if inp.frameSettings.textEnabled.getD false then
      match logoPathFor inp with
      | some _ => { st1 with pendingLogo := st1.pendingLogo ++ [inp] }
      | none => st1
    else st1
  else st

/-- Embedding of `logoImg.onload` firing for a registered run: it clears and redraws the
entire canvas from its closed-over input, again without any staleness check. -/
def fireLogoLoad (inp : CompInput) (st : CanvasState) : CanvasState :=
  if inp ∈ st.pendingLogo then
    { st with pendingLogo := st.pendingLogo.erase inp,
              canvas := some (SurfaceDraw.withLogo inp) }
  else st

/-- Input A of the staleness scenario: a Fujifilm photo on the default white
frame with the logo strip enabled. -/
def inputA : CompInput :=
  { imageUrl := "blob:photo-a"
    frameSettings := { Routes.DEFAULT_SETTINGS with textEnabled := some true }
    exifData := some ⟨some "FUJIFILM", some "X100VI", none, none, none, none⟩ }

/-- Input B of the staleness scenario: a different photo selected immediately
afterwards. -/
def inputB : CompInput :=
  { imageUrl := "blob:photo-b"
    frameSettings := { Routes.DEFAULT_SETTINGS with textEnabled := some true }
    exifData := some ⟨some "Apple", some "iPhone 15 Pro", none, none, none, none⟩ }

theorem logoPathFor_A : logoPathFor inputA = some "/logos/fujifilm/x100vi_black.webp" := by
  unfold logoPathFor inputA
  simp only [Option.bind]
  rw [show ({ Routes.DEFAULT_SETTINGS with textEnabled := some true } :
        FrameSettings).frameColor = "#ffffff" from rfl, isDark_white]
  decide

theorem logoPathFor_B : logoPathFor inputB = some "/logos/apple/iphone_black.webp" := by
  unfold logoPathFor inputB
  simp only [Option.bind]
  rw [show ({ Routes.DEFAULT_SETTINGS with textEnabled := some true } :
        FrameSettings).frameColor = "#ffffff" from rfl, isDark_white]
  decide

end FrameCanvas

namespace Routes

/-- The state `handleExport` reads: the canvas element with its pixel size
(`none` while unmounted) and the uploaded `imageFile` name. -/
structure ExportEnv where
  canvas : Option (Nat × Nat)
  imageFile : Option String
deriving DecidableEq

/-- The externally observable outcome of one `handleExport` call: the file
the browser was asked to download, whether any failure was reported to the
user-facing layer, and whether the loading dialog was shown. -/
structure ExportOutcome where
  savedFile : Option String
  errorReported : Bool
  loadingShown : Bool
deriving DecidableEq

/-- Embedding of `canvas.toBlob` as specified by HTML: the callback receives `null` when
the canvas bitmap has zero area, and an encoded blob otherwise (encoder
success assumed); the blob content itself is abstracted away. -/
def jsToBlob (w h : Nat) : Option Unit :=
  if w = 0 || h = 0 then none else some ()

/-- The filename rewrite `originalName.replace(/\.[^/.]+$/, '')`: drop a
final dot-extension made of at least one character none of which is a slash
or another dot. -/
def jsStripExtension (name : String) : String :=
  let r := name.data.reverse
  let run := r.takeWhile fun c => !(c = '.' || c = '/')
  match r.drop run.length with
  | '.' :: rest => if run.isEmpty then name else String.mk rest.reverse
  | _ => name

example : jsStripExtension "photo.jpg" = "photo" := by decide
example : jsStripExtension "archive.tar.gz" = "archive.tar" := by decide
example : jsStripExtension "noext" = "noext" := by decide
example : jsStripExtension "file." = "file." := by decide

/-- Embedding of `handleExport` from `src/routes/index.tsx` (lines 294-330).  With no
canvas or no image file it returns at once; otherwise it shows the loading
dialog and asks for a JPEG blob, and when the callback receives `null` it
only hides the dialog again.  No branch reports anything to the user. -/
def handleExport (env : ExportEnv) : ExportOutcome :=
  match env.canvas, env.imageFile with
  | none, _ => ⟨none, false, false⟩
  | some _, none => ⟨none, false, false⟩
  | some (w, h), some originalName =>
    let nameWithoutExt := jsStripExtension originalName
    let exportFilename := nameWithoutExt ++ "-framed.jpg"
    match jsToBlob w h with
    | none => ⟨none, false, true⟩
    | some _ => ⟨some exportFilename, false, true⟩

example : handleExport ⟨some (0, 0), some "photo.jpg"⟩ = ⟨none, false, true⟩ := by decide
example : handleExport ⟨some (0, 0), none⟩ = ⟨none, false, false⟩ := by decide
example :
    handleExport ⟨some (1180, 980), some "photo.jpg"⟩ =
      ⟨some "photo-framed.jpg", false, true⟩ := by decide

end Routes

namespace Storage

/-- A record in the single image slot; `blob := none` embeds a corrupt record
whose `blob` field is missing (the `result.blob` truthiness check fails). -/
structure StoredImage where
  blob : Option String
  fileName : String
deriving DecidableEq

/-- The IndexedDB environment `loadImageFromStorage` runs against: the single
keyed slot and the two failure modes of opening and reading. -/
structure IDB where
  slot : Option StoredImage
  openFails : Bool
  readFails : Bool
deriving DecidableEq

/-- Embedding of `loadImageFromStorage` from `src/lib/storage.ts` (lines 67-103).  A
failure of `openDatabase` is caught by the surrounding try/catch and becomes
`null`; a failure of the read request rejects the promise that was returned
without `await`, so it escapes that try/catch; a missing record or one with a
falsy `blob` resolves to `null`. -/
def loadImageFromStorage (db : IDB) : Except String (Option (String × String)) :=
  if db.openFails then Except.ok none
  else if db.readFails then Except.error "Failed to load image from IndexedDB"
  else
    match db.slot with
    | some r =>
      match r.blob with
      | some b => Except.ok (some (b, r.fileName))
      | none => Except.ok none
    | none => Except.ok none

/-- Embedding of `clearImageFromStorage` from `src/lib/storage.ts` (lines 105-129): deletes
the slot; an `openDatabase` failure is swallowed. -/
def clearImageFromStorage (db : IDB) : IDB :=
  if db.openFails then db else { db with slot := none }

end Storage

namespace Routes

/-- The `loadStoredImage` effect from `src/routes/index.tsx` (lines 197-220):
a loaded image is adopted into the app state, a `null` result does nothing,
and only a rejection reaches the `catch` that clears the stored slot. -/
def loadStoredImage (db : Storage.IDB) : Storage.IDB × Option (String × String) :=
  match Storage.loadImageFromStorage db with
  | Except.ok (some img) => (db, some img)
  | Except.ok none => (db, none)
  | Except.error _ => (Storage.clearImageFromStorage db, none)

end Routes

example :
    Routes.loadStoredImage ⟨some ⟨none, "img.jpg"⟩, false, false⟩ =
      (⟨some ⟨none, "img.jpg"⟩, false, false⟩, none) := by decide
example :
    Routes.loadStoredImage ⟨some ⟨some "bytes", "img.jpg"⟩, false, true⟩ =
      (⟨none, false, true⟩, none) := by decide

/-- C2: for every image size and settings value, with `avgSize = (W + H) / 2`,
a present `frameWidths` gives each side `avgSize * side / 100` independently
(with `frameWidth` ignored entirely), an absent one gives all four sides
`avgSize * frameWidth / 100`, the canvas is `(W + leftPx + rightPx) ×
(H + topPx + bottomPx)`, and a 1000×800 image with uniform `frameWidth = 10`
yields 90 px sides and a 1180×980 canvas. -/
theorem C2_frame_geometry :
    (∀ (W H : Rat) (s : FrameSettings) (fw : FrameWidths), s.frameWidths = some fw →
      FrameCanvas.computeGeometry W H s =
        { topPx := (W + H) / 2 * fw.top / 100
          rightPx := (W + H) / 2 * fw.right / 100
          bottomPx := (W + H) / 2 * fw.bottom / 100
          leftPx := (W + H) / 2 * fw.left / 100
          canvasWidth := W + (W + H) / 2 * fw.left / 100 + (W + H) / 2 * fw.right / 100
          canvasHeight := H + (W + H) / 2 * fw.top / 100 + (W + H) / 2 * fw.bottom / 100 } ∧
      (∀ other : Rat,
        FrameCanvas.computeGeometry W H { s with frameWidth := other } =
          FrameCanvas.computeGeometry W H s)) ∧
    (∀ (W H : Rat) (s : FrameSettings), s.frameWidths = none →
      FrameCanvas.computeGeometry W H s =
        { topPx := (W + H) / 2 * s.frameWidth / 100
          rightPx := (W + H) / 2 * s.frameWidth / 100
          bottomPx := (W + H) / 2 * s.frameWidth / 100
          leftPx := (W + H) / 2 * s.frameWidth / 100
          canvasWidth := W + (W + H) / 2 * s.frameWidth / 100 + (W + H) / 2 * s.frameWidth / 100
          canvasHeight := H + (W + H) / 2 * s.frameWidth / 100 + (W + H) / 2 * s.frameWidth / 100 }) ∧
    (∀ (W H : Rat) (s : FrameSettings),
      (FrameCanvas.computeGeometry W H s).canvasWidth =
        W + (FrameCanvas.computeGeometry W H s).leftPx +
          (FrameCanvas.computeGeometry W H s).rightPx ∧
      (FrameCanvas.computeGeometry W H s).canvasHeight =
        H + (FrameCanvas.computeGeometry W H s).topPx +
          (FrameCanvas.computeGeometry W H s).bottomPx) ∧
    FrameCanvas.computeGeometry 1000 800 { Routes.DEFAULT_SETTINGS with frameWidth := 10 } =
      ⟨90, 90, 90, 90, 1180, 980⟩ := by
  refine ⟨?_, ?_, ?_, ?_⟩
  · intro W H s fw hfw
    obtain ⟨sfw, sfc, stc, scat, ste, ssst, ssed, sfws⟩ := s
    cases hfw
    exact ⟨rfl, fun other => rfl⟩
  · intro W H s hfw
    obtain ⟨sfw, sfc, stc, scat, ste, ssst, ssed, sfws⟩ := s
    cases hfw
    rfl
  · intro W H s
    obtain ⟨sfw, sfc, stc, scat, ste, ssst, ssed, sfws⟩ := s
    cases sfws <;> exact ⟨rfl, rfl⟩
  · simp only [FrameCanvas.computeGeometry, Routes.DEFAULT_SETTINGS]
    norm_num

/-- Witness for C2: the per-side preset geometry of a 1000×800 image with
`frameWidths = {top 2, right 2, bottom 12, left 2}`. -/
theorem C2_frame_geometry_witness :
    FrameCanvas.computeGeometry 1000 800
        { Routes.DEFAULT_SETTINGS with frameWidths := some ⟨2, 2, 12, 2⟩ } =
      { topPx := (1000 + 800) / 2 * 2 / 100
        rightPx := (1000 + 800) / 2 * 2 / 100
        bottomPx := (1000 + 800) / 2 * 12 / 100
        leftPx := (1000 + 800) / 2 * 2 / 100
        canvasWidth := 1000 + (1000 + 800) / 2 * 2 / 100 + (1000 + 800) / 2 * 2 / 100
        canvasHeight := 800 + (1000 + 800) / 2 * 2 / 100 + (1000 + 800) / 2 * 12 / 100 } :=
  (C2_frame_geometry.1 1000 800
    { Routes.DEFAULT_SETTINGS with frameWidths := some ⟨2, 2, 12, 2⟩ } ⟨2, 2, 12, 2⟩ rfl).1

/-- C8: selecting a preset replaces the settings with the defaults overridden
by exactly the fields the preset defines — every omitted field reverts to its
default, every defined field wins, and the previous settings play no role; in
particular selecting Classic White (which omits `textEnabled`) always yields
the default `textEnabled = false`. -/
theorem C8_preset_merge :
    (∀ (p : Preset) (prev : FrameSettings × String),
      Routes.handlePresetSelect p prev = (Routes.presetSettings p, p.name)) ∧
    ((∀ p : Preset, p.frameWidth = none →
        (Routes.presetSettings p).frameWidth = Routes.DEFAULT_SETTINGS.frameWidth) ∧
     (∀ p : Preset, p.contrastAwareText = none →
        (Routes.presetSettings p).contrastAwareText = Routes.DEFAULT_SETTINGS.contrastAwareText) ∧
     (∀ p : Preset, p.textEnabled = none →
        (Routes.presetSettings p).textEnabled = Routes.DEFAULT_SETTINGS.textEnabled) ∧
     (∀ p : Preset, p.showShotOnText = none →
        (Routes.presetSettings p).showShotOnText = Routes.DEFAULT_SETTINGS.showShotOnText) ∧
     (∀ p : Preset, p.showExifData = none →
        (Routes.presetSettings p).showExifData = Routes.DEFAULT_SETTINGS.showExifData) ∧
     (∀ p : Preset, p.frameWidths = none →
        (Routes.presetSettings p).frameWidths = Routes.DEFAULT_SETTINGS.frameWidths)) ∧
    ((∀ p : Preset, (Routes.presetSettings p).frameColor = p.frameColor) ∧
     (∀ p : Preset, (Routes.presetSettings p).textColor = p.textColor) ∧
     (∀ (p : Preset) (v : Rat), p.frameWidth = some v →
        (Routes.presetSettings p).frameWidth = v) ∧
     (∀ (p : Preset) (b : Bool), p.textEnabled = some b →
        (Routes.presetSettings p).textEnabled = some b) ∧
     (∀ (p : Preset) (w : FrameWidths), p.frameWidths = some w →
        (Routes.presetSettings p).frameWidths = some w)) ∧
    (∀ prev : FrameSettings × String,
      (Routes.handlePresetSelect Routes.classicWhite prev).1.textEnabled = some false) := by
  refine ⟨fun p prev => rfl, ⟨?_, ?_, ?_, ?_, ?_, ?_⟩, ⟨fun p => rfl, fun p => rfl, ?_, ?_, ?_⟩, ?_⟩
  · intro p h
    simp [Routes.presetSettings, h]
  · intro p h
    simp [Routes.presetSettings, h, Option.orElse]
  · intro p h
    simp [Routes.presetSettings, h, Option.orElse]
  · intro p h
    simp [Routes.presetSettings, h, Option.orElse]
  · intro p h
    simp [Routes.presetSettings, h, Option.orElse]
  · intro p h
    simp [Routes.presetSettings, h, Option.orElse]
  · intro p v h
    simp [Routes.presetSettings, h]
  · intro p b h
    simp [Routes.presetSettings, h, Option.orElse]
  · intro p w h
    simp [Routes.presetSettings, h, Option.orElse]
  · intro prev
    rfl

/-- Witness for C8: selecting Classic White after the user toggled
`textEnabled` on resets it to the default `false`. -/
theorem C8_preset_merge_witness :
    (Routes.presetSettings Routes.classicWhite).textEnabled =
      Routes.DEFAULT_SETTINGS.textEnabled :=
  C8_preset_merge.2.1.2.2.1 Routes.classicWhite rfl

namespace Storage

/-- Claim C4's resolver, modelled from the claim's words: none for an absent
or unknown make; otherwise a `/logos/<folder>/<pre>_<variant>.webp` path whose
`pre` comes from exact normalized-model lookup, then the Apple iphone
substring case, then the first two-way substring match in declaration order,
then the brand's generic logo. -/
def claimLogoPath (make model : Option String) (dark : Bool) : Option String :=
  match make with
  | none => none
  | some mk =>
    match CAMERA_BRANDS.lookup (normalize mk) with
    | none => none
    | some brand =>
      let variantStr : String := if dark then "white" else "black"
      let chosen : String :=
        match model with
        | none => brand.brandLogo
        | some md =>
          let nmodel := normalize md
          match brand.models.lookup nmodel with
          | some f => f
          | none =>
            if normalize mk = "apple" && includesChars nmodel.data "iphone".data then "iphone"
            else
              match firstTwoWay nmodel brand.models with
              | some f => f
              | none => brand.brandLogo
      some ("/logos/" ++ brand.folder ++ "/" ++ chosen ++ "_" ++ variantStr ++ ".webp")

/-- Claim C4 amended: same cascade, except that a model that normalizes to
the empty string skips the model-matching steps (the code's
`if (normalizedModel)` guard) and takes the generic brand logo directly. -/
def claimLogoPathAmended (make model : Option String) (dark : Bool) : Option String :=
  match make with
  | none => none
  | some mk =>
    match CAMERA_BRANDS.lookup (normalize mk) with
    | none => none
    | some brand =>
      let variantStr : String := if dark then "white" else "black"
      let nmodel : String :=
        match model with
        | some md => normalize md
        | none => ""
      let chosen : String :=
        if nmodel = "" then brand.brandLogo
        else
          match brand.models.lookup nmodel with
          | some f => f
          | none =>
            if normalize mk = "apple" && includesChars nmodel.data "iphone".data then "iphone"
            else
              match firstTwoWay nmodel brand.models with
              | some f => f
              | none => brand.brandLogo
      some ("/logos/" ++ brand.folder ++ "/" ++ chosen ++ "_" ++ variantStr ++ ".webp")

end Storage

theorem stringAppendIphone (a : String) : a ++ "/iphone_" = a ++ "/" ++ "iphone" ++ "_" := by
  rw [String.append_assoc, String.append_assoc]
  rfl

/-- C4 counterexample: a model of whitespace only (normalized form empty) is
sent to the generic brand logo by the code, while the claim's cascade lets the
empty string two-way-substring-match the first table entry `x100vi`. -/
theorem C4_logo_resolver_counterexample :
    Storage.getCameraLogoPath (some "FUJIFILM") (some " ") false =
      some "/logos/fujifilm/fujifilm_logo_black.webp" ∧
    Storage.claimLogoPath (some "FUJIFILM") (some " ") false =
      some "/logos/fujifilm/x100vi_black.webp" ∧
    Storage.getCameraLogoPath (some "FUJIFILM") (some " ") false ≠
      Storage.claimLogoPath (some "FUJIFILM") (some " ") false := by
  refine ⟨by decide, by decide, by decide⟩


/-- C4 amended: the resolver returns none exactly for an absent or unknown
(after normalization) make; otherwise it produces
`/logos/<folder>/<pre>_<variant>.webp` with variant `white` exactly on dark
backgrounds, choosing `pre` by exact normalized-model lookup, then the Apple
iphone-substring case, then the first two-way substring match in declaration
order, then the brand's generic logo — except that a model normalizing to the
empty string skips the matching steps and takes the generic logo.  The
FUJIFILM X100VI example yields the `x100vi_black.webp` asset and an unknown
make yields none. -/
theorem C4_logo_resolver :
    (∀ (make model : Option String) (dark : Bool),
      Storage.getCameraLogoPath make model dark = Storage.claimLogoPathAmended make model dark) ∧
    Storage.getCameraLogoPath (some "FUJIFILM") (some "X100VI") false =
      some ("/logos/fujifilm/" ++ "x100vi_black.webp") ∧
    Storage.getCameraLogoPath (some "Canon") (some "EOS R5") false = none ∧
    Storage.getCameraLogoPath none (some "X100VI") true = none := by
  refine ⟨?_, by decide, by decide, by decide⟩
  intro make model dark
  cases make with
  | none => rfl
  | some mk =>
    by_cases hmk : mk = ""
    · subst hmk
      have h1 : Storage.CAMERA_BRANDS.lookup (Storage.normalize "") = none := rfl
      simp [Storage.getCameraLogoPath, Storage.claimLogoPathAmended, h1]
    · cases hbr : Storage.CAMERA_BRANDS.lookup (Storage.normalize mk) with
      | none =>
        simp [Storage.getCameraLogoPath, Storage.claimLogoPathAmended, hbr, hmk]
      | some brand =>
        cases model with
        | none =>
          simp [Storage.getCameraLogoPath, Storage.claimLogoPathAmended, hbr, hmk]
        | some md =>
          by_cases hm : Storage.normalize md = ""
          · simp [Storage.getCameraLogoPath, Storage.claimLogoPathAmended, hbr, hmk, hm]
          · cases hlk : brand.models.lookup (Storage.normalize md) with
            | some f =>
              simp [Storage.getCameraLogoPath, Storage.claimLogoPathAmended, hbr, hmk, hm, hlk]
            | none =>
              cases happ : (decide (Storage.normalize mk = "apple") &&
                  Storage.includesChars (Storage.normalize md).data ['i', 'p', 'h', 'o', 'n', 'e']) with
              | true =>
                simp [Storage.getCameraLogoPath, Storage.claimLogoPathAmended, hbr, hmk, hm,
                  hlk, happ, stringAppendIphone]
              | false =>
                cases htw : Storage.firstTwoWay (Storage.normalize md) brand.models with
                | some f =>
                  simp [Storage.getCameraLogoPath, Storage.claimLogoPathAmended, hbr, hmk, hm,
                    hlk, happ, htw]
                | none =>
                  simp [Storage.getCameraLogoPath, Storage.claimLogoPathAmended, hbr, hmk, hm,
                    hlk, happ, htw]

theorem listSix (cs : List Char) (h : cs.length = 6) :
    ∃ a b c d e f, cs = [a, b, c, d, e, f] := by
  rcases cs with _ | ⟨a, cs⟩; · simp at h
  rcases cs with _ | ⟨b, cs⟩; · simp at h
  rcases cs with _ | ⟨c, cs⟩; · simp at h
  rcases cs with _ | ⟨d, cs⟩; · simp at h
  rcases cs with _ | ⟨e, cs⟩; · simp at h
  rcases cs with _ | ⟨f, cs⟩; · simp at h
  rcases cs with _ | ⟨g, cs⟩
  · exact ⟨a, b, c, d, e, f, rfl⟩
  · simp at h

theorem jsParseHex_pair (a b : Char) (va vb : Nat) (ha : hexDigitVal a = some va)
    (hb : hexDigitVal b = some vb) : jsParseHex [a, b] = some (16 * va + vb) := by
  simp [jsParseHex, jsParseHexLoop, ha, hb]

/-- Modelled from the spec's wording for the contrast resolver: decode the six
hex digits pairwise into sRGB channel bytes. -/
def specDecode6 (s : String) : Option (Nat × Nat × Nat) :=
  match removeFirstHash s.data with
  | [a, b, c, d, e, f] =>
    match hexDigitVal a, hexDigitVal b, hexDigitVal c, hexDigitVal d,
          hexDigitVal e, hexDigitVal f with
    | some va, some vb, some vc, some vd, some ve, some vf =>
      some (16 * va + vb, 16 * vc + vd, 16 * ve + vf)
    | _, _, _, _, _, _ => none
  | _ => none

/-- Modelled from the spec's wording: linearize each channel, combine with the
luminance weights 0.2126 / 0.7152 / 0.0722, return black iff luminance
exceeds 0.179. -/
noncomputable def specResolveTextColor (s : String) : String :=
  match specDecode6 s with
  | none => "#ffffff"
  | some (r, g, b) =>
    if 0.2126 * toLinear ((r : Real) / 255) + 0.7152 * toLinear ((g : Real) / 255) +
        0.0722 * toLinear ((b : Real) / 255) > 0.179 then "#000000" else "#ffffff"

theorem isHexColor6_parts (s : String) (h : isHexColor6 s = true) :
    (removeFirstHash s.data).length = 6 ∧
      ∀ c ∈ removeFirstHash s.data, (hexDigitVal c).isSome = true := by
  have h' := h
  simp only [isHexColor6, Bool.and_eq_true, beq_iff_eq, List.all_eq_true] at h'
  exact h'

theorem hexChannels_spec (s : String) (h : isHexColor6 s = true) :
    hexChannels s = specDecode6 s ∧ ∃ t, hexChannels s = some t := by
  obtain ⟨hlen, hall⟩ := isHexColor6_parts s h
  obtain ⟨a, b, c, d, e, f, heq⟩ := listSix _ hlen
  have ha := hall a (by rw [heq]; simp)
  have hb := hall b (by rw [heq]; simp)
  have hc := hall c (by rw [heq]; simp)
  have hd := hall d (by rw [heq]; simp)
  have he := hall e (by rw [heq]; simp)
  have hf := hall f (by rw [heq]; simp)
  obtain ⟨va, hva⟩ := Option.isSome_iff_exists.mp ha
  obtain ⟨vb, hvb⟩ := Option.isSome_iff_exists.mp hb
  obtain ⟨vc, hvc⟩ := Option.isSome_iff_exists.mp hc
  obtain ⟨vd, hvd⟩ := Option.isSome_iff_exists.mp hd
  obtain ⟨ve, hve⟩ := Option.isSome_iff_exists.mp he
  obtain ⟨vf, hvf⟩ := Option.isSome_iff_exists.mp hf
  constructor
  · simp [hexChannels, specDecode6, heq,
      jsParseHex_pair a b va vb hva hvb, jsParseHex_pair c d vc vd hvc hvd,
      jsParseHex_pair e f ve vf hve hvf, hva, hvb, hvc, hvd, hve, hvf]
  · refine ⟨(16 * va + vb, 16 * vc + vd, 16 * ve + vf), ?_⟩
    simp [hexChannels, heq,
      jsParseHex_pair a b va vb hva hvb, jsParseHex_pair c d vc vd hvc hvd,
      jsParseHex_pair e f ve vf hve hvf]

theorem frameCanvas_lum_white : FrameCanvas.getLuminance "#ffffff" = some 1 :=
  (storage_lum_eq_frameCanvas "#ffffff") ▸ storage_lum_white

/-- C3: the contrast resolver always returns exactly `#000000` or `#ffffff`,
returns black precisely when the relative luminance exceeds 0.179, and on
every six-hex-digit colour agrees with the resolver built from the spec's own
formula (pairwise hex decode, sRGB gamma linearization with breakpoint
0.03928, luminance weights 0.2126/0.7152/0.0722). -/
theorem C3_contrast_resolver :
    (∀ s, FrameCanvas.getContrastTextColor s = "#000000" ∨
      FrameCanvas.getContrastTextColor s = "#ffffff") ∧
    (∀ s l, FrameCanvas.getLuminance s = some l →
      (FrameCanvas.getContrastTextColor s = "#000000" ↔ l > 0.179)) ∧
    (∀ s, isHexColor6 s = true →
      FrameCanvas.getContrastTextColor s = specResolveTextColor s) := by
  have hBW : ("#ffffff" : String) ≠ "#000000" := by decide
  refine ⟨?_, ?_, ?_⟩
  · intro s
    cases hl : FrameCanvas.getLuminance s with
    | none => exact Or.inr (by simp only [FrameCanvas.getContrastTextColor, hl])
    | some l =>
      simp only [FrameCanvas.getContrastTextColor, hl]
      by_cases hgt : l > 0.179
      · exact Or.inl (by rw [if_pos hgt])
      · exact Or.inr (by rw [if_neg hgt])
  · intro s l hl
    simp only [FrameCanvas.getContrastTextColor, hl]
    by_cases hgt : l > 0.179
    · rw [if_pos hgt]
      exact ⟨fun _ => hgt, fun _ => rfl⟩
    · rw [if_neg hgt]
      exact ⟨fun habs => absurd habs hBW, fun habs => absurd habs hgt⟩
  · intro s h
    obtain ⟨hspec, t, ht⟩ := hexChannels_spec s h
    simp only [FrameCanvas.getContrastTextColor, FrameCanvas.getLuminance,
      specResolveTextColor, hspec]
    cases hd : specDecode6 s with
    | none => rfl
    | some t2 =>
      obtain ⟨r, g, b⟩ := t2
      rfl

/-- Witness for C3 at the concrete colour `#ffffff` (luminance 1). -/
theorem C3_contrast_resolver_witness :
    isHexColor6 "#ffffff" = true ∧
    FrameCanvas.getContrastTextColor "#ffffff" = specResolveTextColor "#ffffff" ∧
    (FrameCanvas.getContrastTextColor "#ffffff" = "#000000" ↔ (1 : Real) > 0.179) :=
  ⟨by decide, C3_contrast_resolver.2.2 "#ffffff" (by decide),
    C3_contrast_resolver.2.1 "#ffffff" 1 frameCanvas_lum_white⟩

/-- C10: both files compute the same relative luminance, and on every
six-hex-digit colour the logo variant test `isDarkBackground` holds exactly
when the contrast resolver picks white text; both compare the shared luminance
against the same threshold, darkness being luminance at most 0.179 (so
exactly 0.179 counts as dark). -/
theorem C10_dark_iff_white_text :
    (∀ s, Storage.getLuminance s = FrameCanvas.getLuminance s) ∧
    (∀ s, isHexColor6 s = true →
      (Storage.isDarkBackground s = true ↔ FrameCanvas.getContrastTextColor s = "#ffffff")) ∧
    (∀ s l, Storage.getLuminance s = some l →
      (Storage.isDarkBackground s = true ↔ l ≤ 0.179) ∧
      (FrameCanvas.getContrastTextColor s = "#ffffff" ↔ l ≤ 0.179)) := by
  have hBW : ("#000000" : String) ≠ "#ffffff" := by decide
  have part3 : ∀ s l, Storage.getLuminance s = some l →
      (Storage.isDarkBackground s = true ↔ l ≤ 0.179) ∧
      (FrameCanvas.getContrastTextColor s = "#ffffff" ↔ l ≤ 0.179) := by
    intro s l hl
    have hl' : FrameCanvas.getLuminance s = some l := (storage_lum_eq_frameCanvas s) ▸ hl
    constructor
    · simp only [Storage.isDarkBackground, hl]
      by_cases hle : l ≤ 0.179
      · rw [if_pos hle]
        exact ⟨fun _ => hle, fun _ => rfl⟩
      · rw [if_neg hle]
        exact ⟨fun habs => absurd habs (by decide), fun habs => absurd habs hle⟩
    · simp only [FrameCanvas.getContrastTextColor, hl']
      by_cases hgt : l > 0.179
      · rw [if_pos hgt]
        exact ⟨fun habs => absurd habs hBW, fun hle => absurd hgt (not_lt.mpr hle)⟩
      · rw [if_neg hgt]
        exact ⟨fun _ => not_lt.mp hgt, fun _ => rfl⟩
  refine ⟨storage_lum_eq_frameCanvas, ?_, part3⟩
  intro s h
  obtain ⟨_, t, ht⟩ := hexChannels_spec s h
  obtain ⟨r, g, b⟩ := t
  have hlum : ∃ l, Storage.getLuminance s = some l := by
    simp only [Storage.getLuminance, ht]
    exact ⟨_, rfl⟩
  obtain ⟨l, hl⟩ := hlum
  exact ((part3 s l hl).1).trans ((part3 s l hl).2).symm

/-- Witness for C10 at the concrete colour `#000000`. -/
theorem C10_dark_iff_white_text_witness :
    isHexColor6 "#000000" = true ∧
    (Storage.isDarkBackground "#000000" = true ↔
      FrameCanvas.getContrastTextColor "#000000" = "#ffffff") ∧
    (Storage.isDarkBackground "#000000" = true ↔ (0 : Real) ≤ 0.179) :=
  ⟨by decide, C10_dark_iff_white_text.2.1 "#000000" (by decide),
    (C10_dark_iff_white_text.2.2 "#000000" 0 storage_lum_black).1⟩

theorem dot_not_mem_natCharsAux (fuel n : Nat) : '.' ∉ natCharsAux fuel n := by
  induction fuel generalizing n with
  | zero => simp [natCharsAux]
  | succ fuel ih =>
    by_cases h : n < 10
    · simp only [natCharsAux, if_pos h, List.mem_singleton]
      intro hmem
      interval_cases n <;> exact absurd hmem (by decide)
    · simp only [natCharsAux, if_neg h, List.mem_append, List.mem_singleton]
      rintro (h1 | h2)
      · exact ih _ h1
      · have hlt : n % 10 < 10 := Nat.mod_lt _ (by norm_num)
        set k := n % 10 with hk
        interval_cases k <;> exact absurd h2 (by decide)

theorem dot_not_mem_natStr (n : Nat) : '.' ∉ natStr n :=
  dot_not_mem_natCharsAux (n + 1) n

theorem natCharsAux_len (k : Nat) :
    ∀ (fuel n : Nat), n < fuel → n < 10 ^ k → 1 ≤ k → (natCharsAux fuel n).length ≤ k := by
  intro fuel
  induction fuel generalizing k with
  | zero => omega
  | succ fuel ih =>
    intro n hfuel hk h1
    by_cases h : n < 10
    · simp only [natCharsAux, if_pos h, List.length_singleton]
      omega
    · simp only [natCharsAux, if_neg h, List.length_append, List.length_singleton]
      have hn10 : n / 10 < fuel := by
        have := Nat.div_lt_self (show 0 < n by omega) (by norm_num : 1 < 10)
        omega
      have hk2 : 2 ≤ k := by
        by_contra hc
        have hk1 : k = 1 := by omega
        subst hk1
        simp [pow_one] at hk
        omega
      have hdiv : n / 10 < 10 ^ (k - 1) := by
        rw [Nat.div_lt_iff_lt_mul (by norm_num : 0 < 10)]
        have hpow : 10 ^ (k - 1) * 10 = 10 ^ k := by
          rw [← pow_succ]
          congr 1
          omega
        omega
      have := ih (k - 1) (n / 10) hn10 hdiv (by omega)
      omega

theorem natStr_len (n k : Nat) (hk : n < 10 ^ k) (h1 : 1 ≤ k) : (natStr n).length ≤ k :=
  natCharsAux_len k (n + 1) n (Nat.lt_succ_self n) hk h1

theorem padZeros_len (cs : List Char) (k : Nat) (h : cs.length ≤ k) :
    (padZeros cs k).length = k := by
  simp [padZeros]
  omega

theorem jsIndexOf_not_mem (c : Char) (cs : List Char) (h : c ∉ cs) :
    jsIndexOf c cs = none := by
  induction cs with
  | nil => rfl
  | cons a rest ih =>
    simp only [List.mem_cons, not_or] at h
    simp only [jsIndexOf]
    rw [if_neg (fun heq => h.1 heq.symm), ih h.2]
    rfl

theorem jsIndexOf_append (c : Char) (xs ys : List Char) (h : c ∉ xs) :
    jsIndexOf c (xs ++ c :: ys) = some xs.length := by
  induction xs with
  | nil => simp [jsIndexOf]
  | cons a rest ih =>
    simp only [List.mem_cons, not_or] at h
    simp only [List.cons_append, jsIndexOf]
    rw [if_neg (fun heq => h.1 heq.symm)]
    simp only [List.append_eq]
    rw [ih h.2]
    rfl

/-- Which branch `formatDecimal` takes is decided purely by the exponent: at
most one fraction digit keeps the plain rendering, two or more trigger
`toFixed(1)`. -/
theorem formatDecimal_eq (d : Dec) :
    formatDecimal d = if d.e ≤ 1 then d.str else jsToFixed1 d := by
  by_cases he : d.e = 0
  · have hnd : '.' ∉ d.chars := by
      simp only [Dec.chars, if_pos he]
      exact dot_not_mem_natStr d.m
    simp only [formatDecimal, jsIndexOf_not_mem _ _ hnd]
    rw [if_pos (by omega)]
    rfl
  · have he1 : 1 ≤ d.e := by omega
    have hchars : d.chars =
        natStr (d.m / 10 ^ d.e) ++ '.' :: padZeros (natStr (d.m % 10 ^ d.e)) d.e := by
      simp [Dec.chars, he]
    have hidx : jsIndexOf '.' d.chars = some (natStr (d.m / 10 ^ d.e)).length := by
      rw [hchars]
      exact jsIndexOf_append _ _ _ (dot_not_mem_natStr _)
    have hflen : (padZeros (natStr (d.m % 10 ^ d.e)) d.e).length = d.e := by
      apply padZeros_len
      exact natStr_len _ _ (Nat.mod_lt _ (Nat.pos_pow_of_pos _ (by norm_num))) he1
    have hlen : d.chars.length = (natStr (d.m / 10 ^ d.e)).length + 1 + d.e := by
      rw [hchars]
      simp [hflen]
      omega
    simp only [formatDecimal, hidx]
    by_cases he2 : d.e ≤ 1
    · rw [if_neg (by omega), if_pos he2]
      rfl
    · rw [if_pos (by omega), if_neg he2]

/-- Modelled from claim C6's words: the value rounded (half-up) to at most one
decimal place with a trailing `.0` suppressed, so integer-valued results
print with no decimal point. -/
def claimRound1 (d : Dec) : String :=
  let n := (20 * d.m + 10 ^ d.e) / (2 * 10 ^ d.e)
  if n % 10 = 0 then String.mk (natStr (n / 10))
  else String.mk (natStr (n / 10) ++ '.' :: natStr (n % 10))

/-- C6 counterexample: focal length 2.04 formats as `2.0mm` in the code
(`toFixed(1)` keeps the trailing `.0`), while the claim's rounding with `.0`
suppressed yields `2mm`. -/
theorem C6_decimal_formatting_counterexample :
    FrameCanvas.formatFocalLength (some ⟨204, 2⟩) = some "2.0mm" ∧
    claimRound1 ⟨204, 2⟩ ++ "mm" = "2mm" ∧
    FrameCanvas.formatFocalLength (some ⟨204, 2⟩) ≠ some (claimRound1 ⟨204, 2⟩ ++ "mm") :=
  ⟨by decide, by decide, by decide⟩

/-- C6 amended: for every positive canonical decimal, focal length formats as
`<v>mm` and aperture as `f/<v>`, where `v` is the value's own rendering
unchanged when it carries at most one fraction digit (so integer-valued
inputs print with no decimal point), and the value rounded half-up to exactly
one decimal place — keeping a trailing `.0` — when it carries two or more;
in particular 35 gives `35mm`, 2.8 gives `f/2.8`, and 2.04 gives `2.0mm`. -/
theorem C6_decimal_formatting :
    (∀ d : Dec, d.normal → 0 < d.m →
      FrameCanvas.formatFocalLength (some d) = some (formatDecimal d ++ "mm") ∧
      FrameCanvas.formatAperture (some d) = some ("f/" ++ formatDecimal d) ∧
      (d.e ≤ 1 → formatDecimal d = d.str) ∧
      (2 ≤ d.e → formatDecimal d = jsToFixed1 d)) ∧
    FrameCanvas.formatFocalLength (some ⟨35, 0⟩) = some "35mm" ∧
    FrameCanvas.formatAperture (some ⟨28, 1⟩) = some "f/2.8" ∧
    FrameCanvas.formatFocalLength (some ⟨204, 2⟩) = some "2.0mm" := by
  refine ⟨?_, by decide, by decide, by decide⟩
  intro d _hn hm
  have hm0 : ¬ d.m = 0 := by omega
  refine ⟨?_, ?_, ?_, ?_⟩
  · simp [FrameCanvas.formatFocalLength, hm0]
  · simp [FrameCanvas.formatAperture, hm0]
  · intro he
    rw [formatDecimal_eq, if_pos he]
  · intro he
    rw [formatDecimal_eq, if_neg (by omega)]

/-- Witness for C6 at the concrete aperture 2.8. -/
theorem C6_decimal_formatting_witness :
    FrameCanvas.formatAperture (some ⟨28, 1⟩) = some ("f/" ++ formatDecimal ⟨28, 1⟩) :=
  (C6_decimal_formatting.1 ⟨28, 1⟩ (by decide) (by decide)).2.1

/-- C7: the summary formats a present nonzero shutter speed as `<v>s` at one
second or more and as `1/<round(1/v)>` (no trailing `s`) below one second,
joins the present fields in the order focal length, aperture, shutter speed,
ISO with exactly two spaces, skips absent fields, and draws nothing when no
field is present; 0.004 gives `1/250` and 2 gives `2s`. -/
theorem C7_exif_summary :
    FrameCanvas.formatExifString none = none ∧
    (∀ e : ExifData, e.focalLength = none → e.aperture = none → e.shutterSpeed = none →
      e.iso = none → FrameCanvas.formatExifString (some e) = none) ∧
    (∀ d : Dec, d.m ≠ 0 → 1 ≤ d.toQ →
      FrameCanvas.formatShutterSpeed (some d) = some (d.str ++ "s")) ∧
    (∀ d : Dec, d.m ≠ 0 → ¬ 1 ≤ d.toQ →
      FrameCanvas.formatShutterSpeed (some d) =
        some ("1/" ++ String.mk (intStr (jsRound (1 / d.toQ))))) ∧
    FrameCanvas.formatShutterSpeed (some ⟨4, 3⟩) = some "1/250" ∧
    FrameCanvas.formatShutterSpeed (some ⟨2, 0⟩) = some "2s" ∧
    FrameCanvas.formatExifString
        (some ⟨none, none, some ⟨35, 0⟩, some ⟨200, 0⟩, some ⟨4, 3⟩, some ⟨28, 1⟩⟩) =
      some "35mm  f/2.8  1/250  ISO200" ∧
    FrameCanvas.formatExifString (some ⟨none, none, some ⟨35, 0⟩, none, some ⟨4, 3⟩, none⟩) =
      some "35mm  1/250" ∧
    (∀ e : ExifData, FrameCanvas.formatExifString (some e) =
      (if ([FrameCanvas.formatFocalLength e.focalLength,
            FrameCanvas.formatAperture e.aperture,
            FrameCanvas.formatShutterSpeed e.shutterSpeed,
            FrameCanvas.formatISO e.iso].filterMap id) = [] then none
       else some (String.intercalate "  "
        ([FrameCanvas.formatFocalLength e.focalLength,
          FrameCanvas.formatAperture e.aperture,
          FrameCanvas.formatShutterSpeed e.shutterSpeed,
          FrameCanvas.formatISO e.iso].filterMap id)))) := by
  refine ⟨rfl, ?_, ?_, ?_, FrameCanvas.shutter_0004, by decide, ?_, ?_, ?_⟩
  · intro e h1 h2 h3 h4
    simp [FrameCanvas.formatExifString, h1, h2, h3, h4,
      FrameCanvas.formatFocalLength, FrameCanvas.formatAperture,
      FrameCanvas.formatShutterSpeed, FrameCanvas.formatISO]
  · intro d h0 h1
    simp only [FrameCanvas.formatShutterSpeed]
    rw [if_neg h0, if_pos h1]
  · intro d h0 h1
    simp only [FrameCanvas.formatShutterSpeed]
    rw [if_neg h0, if_neg h1]
  · simp only [FrameCanvas.formatExifString, FrameCanvas.shutter_0004]
    decide
  · simp only [FrameCanvas.formatExifString, FrameCanvas.shutter_0004]
    decide
  · intro e
    simp only [FrameCanvas.formatExifString]
    cases hp : [FrameCanvas.formatFocalLength e.focalLength,
        FrameCanvas.formatAperture e.aperture,
        FrameCanvas.formatShutterSpeed e.shutterSpeed,
        FrameCanvas.formatISO e.iso].filterMap id with
    | nil => simp [hp]
    | cons a rest => simp [hp]

/-- Witness for C7: the one-second boundary value 2 s formats with the `s`
suffix, and the all-absent record draws nothing. -/
theorem C7_exif_summary_witness :
    FrameCanvas.formatShutterSpeed (some ⟨2, 0⟩) = some (Dec.str ⟨2, 0⟩ ++ "s") ∧
    FrameCanvas.formatExifString (some ⟨none, none, none, none, none, none⟩) = none :=
  ⟨C7_exif_summary.2.2.1 ⟨2, 0⟩ (by decide) (by decide),
    C7_exif_summary.2.1 ⟨none, none, none, none, none, none⟩ rfl rfl rfl rfl⟩

/-- C1: the claim fails on the code.  The effect cleanup is the identity — it
cancels nothing — and in the schedule where composition A (Fujifilm photo)
registers its logo load, composition B then runs to completion, and A's logo
decode resolves last, the final surface shows A's full composition, not B's:
the late stale callback overwrites the newer render unconditionally. -/
theorem C1_stale_overwrite :
    FrameCanvas.effectCleanup = id ∧
    (FrameCanvas.fireLogoLoad FrameCanvas.inputA
        (FrameCanvas.fireLogoLoad FrameCanvas.inputB
          (FrameCanvas.fireImgLoad FrameCanvas.inputB
            (FrameCanvas.runEffect FrameCanvas.inputB
              (FrameCanvas.fireImgLoad FrameCanvas.inputA
                (FrameCanvas.runEffect FrameCanvas.inputA ⟨none, [], []⟩)))))).canvas =
      some (FrameCanvas.SurfaceDraw.withLogo FrameCanvas.inputA) ∧
    FrameCanvas.inputA.imageUrl ≠ FrameCanvas.inputB.imageUrl := by
  refine ⟨rfl, ?_, by decide⟩
  have s1 : FrameCanvas.runEffect FrameCanvas.inputA ⟨none, [], []⟩ =
      ⟨none, [FrameCanvas.inputA], []⟩ := rfl
  have s2 : FrameCanvas.fireImgLoad FrameCanvas.inputA ⟨none, [FrameCanvas.inputA], []⟩ =
      ⟨some (FrameCanvas.SurfaceDraw.base FrameCanvas.inputA), [], [FrameCanvas.inputA]⟩ := by
    simp only [FrameCanvas.fireImgLoad, FrameCanvas.logoPathFor_A]
    decide
  have s3 : FrameCanvas.runEffect FrameCanvas.inputB
      ⟨some (FrameCanvas.SurfaceDraw.base FrameCanvas.inputA), [], [FrameCanvas.inputA]⟩ =
      ⟨some (FrameCanvas.SurfaceDraw.base FrameCanvas.inputA), [FrameCanvas.inputB],
        [FrameCanvas.inputA]⟩ := rfl
  have s4 : FrameCanvas.fireImgLoad FrameCanvas.inputB
      ⟨some (FrameCanvas.SurfaceDraw.base FrameCanvas.inputA), [FrameCanvas.inputB],
        [FrameCanvas.inputA]⟩ =
      ⟨some (FrameCanvas.SurfaceDraw.base FrameCanvas.inputB), [],
        [FrameCanvas.inputA, FrameCanvas.inputB]⟩ := by
    simp only [FrameCanvas.fireImgLoad, FrameCanvas.logoPathFor_B]
    decide
  have s5 : FrameCanvas.fireLogoLoad FrameCanvas.inputB
      ⟨some (FrameCanvas.SurfaceDraw.base FrameCanvas.inputB), [],
        [FrameCanvas.inputA, FrameCanvas.inputB]⟩ =
      ⟨some (FrameCanvas.SurfaceDraw.withLogo FrameCanvas.inputB), [],
        [FrameCanvas.inputA]⟩ := by decide
  have s6 : FrameCanvas.fireLogoLoad FrameCanvas.inputA
      ⟨some (FrameCanvas.SurfaceDraw.withLogo FrameCanvas.inputB), [],
        [FrameCanvas.inputA]⟩ =
      ⟨some (FrameCanvas.SurfaceDraw.withLogo FrameCanvas.inputA), [], []⟩ := by decide
  rw [s1, s2, s3, s4, s5, s6]

/-- C5: the claim fails on the code.  Exporting with a zero-area surface (or
with no image at all) produces no file and does not crash, but no branch of
`handleExport` ever reports a failure: the zero-area `toBlob` callback only
hides the loading dialog, and the missing-image guard returns silently. -/
theorem C5_export_silent_on_empty :
    (∀ name : String, Routes.handleExport ⟨some (0, 0), some name⟩ =
      { savedFile := none, errorReported := false, loadingShown := true }) ∧
    (∀ (h : Nat) (name : String),
      Routes.handleExport ⟨some (0, h), some name⟩ = ⟨none, false, true⟩) ∧
    (∀ (w : Nat) (name : String),
      Routes.handleExport ⟨some (w, 0), some name⟩ = ⟨none, false, true⟩) ∧
    (∀ imageFile : Option String,
      Routes.handleExport ⟨none, imageFile⟩ = ⟨none, false, false⟩) ∧
    (∀ wh : Nat × Nat, Routes.handleExport ⟨some wh, none⟩ = ⟨none, false, false⟩) ∧
    (∀ env : Routes.ExportEnv, (Routes.handleExport env).errorReported = false) := by
  refine ⟨?_, ?_, ?_, fun _ => rfl, fun _ => rfl, ?_⟩
  · intro name
    simp [Routes.handleExport, Routes.jsToBlob]
  · intro h name
    simp [Routes.handleExport, Routes.jsToBlob]
  · intro w name
    simp [Routes.handleExport, Routes.jsToBlob]
  · intro env
    obtain ⟨c, f⟩ := env
    cases c with
    | none => rfl
    | some wh =>
      obtain ⟨w, h⟩ := wh
      cases f with
      | none => rfl
      | some name =>
        simp only [Routes.handleExport]
        cases hb : Routes.jsToBlob w h with
        | none => simp [hb]
        | some u => simp [hb]

/-- C9 counterexample: a readable but corrupt record (present record, missing
image bytes) makes the load resolve to null without raising — but the slot is
left exactly as it was, not cleared. -/
theorem C9_corrupt_slot_counterexample :
    Storage.loadImageFromStorage ⟨some ⟨none, "img.jpg"⟩, false, false⟩ = Except.ok none ∧
    (Routes.loadStoredImage ⟨some ⟨none, "img.jpg"⟩, false, false⟩).1.slot =
      some ⟨none, "img.jpg"⟩ ∧
    (Routes.loadStoredImage ⟨some ⟨none, "img.jpg"⟩, false, false⟩).1.slot ≠ none :=
  ⟨rfl, by decide, by decide⟩

/-- C9 amended: a missing or corrupt stored record resolves to "no stored
image" without raising and leaves the stored slot untouched; the slot is
cleared only when the load raises (an IndexedDB read failure), through the
caller's catch handler. -/
theorem C9_corrupt_slot :
    (∀ db : Storage.IDB, db.openFails = false → db.readFails = false →
      (db.slot = none ∨ ∃ r, db.slot = some r ∧ r.blob = none) →
      Storage.loadImageFromStorage db = Except.ok none ∧
      Routes.loadStoredImage db = (db, none)) ∧
    (∀ db : Storage.IDB, db.openFails = false → db.readFails = true →
      (Routes.loadStoredImage db).1.slot = none ∧
      (Routes.loadStoredImage db).2 = none) := by
  constructor
  · intro db ho hr hslot
    have hload : Storage.loadImageFromStorage db = Except.ok none := by
      rcases hslot with h | ⟨r, hr2, hb⟩
      · simp [Storage.loadImageFromStorage, ho, hr, h]
      · simp [Storage.loadImageFromStorage, ho, hr, hr2, hb]
    exact ⟨hload, by simp [Routes.loadStoredImage, hload]⟩
  · intro db ho hr
    have hload : Storage.loadImageFromStorage db =
        Except.error "Failed to load image from IndexedDB" := by
      simp [Storage.loadImageFromStorage, ho, hr]
    simp [Routes.loadStoredImage, hload, Storage.clearImageFromStorage, ho]

/-- Witness for C9 at the concrete corrupt record. -/
theorem C9_corrupt_slot_witness :
    Storage.loadImageFromStorage ⟨some ⟨none, "img.jpg"⟩, false, false⟩ = Except.ok none ∧
    Routes.loadStoredImage ⟨some ⟨none, "img.jpg"⟩, false, false⟩ =
      (⟨some ⟨none, "img.jpg"⟩, false, false⟩, none) :=
  C9_corrupt_slot.1 ⟨some ⟨none, "img.jpg"⟩, false, false⟩ rfl rfl
    (Or.inr ⟨⟨none, "img.jpg"⟩, rfl, rfl⟩)
